import Mathlib

/-!
Shallow embedding of `src/qt-models/models.cpp` (Subsurface dive-log models):
the grouped dive list (`DiveItem` / `DiveTripModel`), the device list
(`DiveComputerModel`), the yearly statistics tree
(`YearStatisticsItem` / `YearlyStatisticsModel`), and the two print models
(`TablePrintModel`, `ProfilePrintModel`).

Qt machinery (QVariant, QModelIndex, signals) is embedded as plain data:
a `Role` enumeration covering the roles this file uses, explicit state
records for each model, and lists of emitted structural/cell signals.
External formatting helpers (`get_depth_string`, `get_minutes`, ...) are
kept abstract: cells carry the raw numbers handed to those helpers.
C++ integer division, which faults on a zero divisor, is embedded as
`Except Unit _` with an explicit zero test.
-/

set_option autoImplicit false

namespace Subsurface

/-- The Qt item roles used by `models.cpp`, plus the model-specific custom
roles of `DiveTripModel`. -/
inductive Role where
  | display
  | decoration
  | edit
  | toolTip
  | sizeHint
  | font
  | textAlignment
  | background
  | sortRole
  | starRole
  | diveRole
  | diveIdx
  | tripRole
  deriving DecidableEq

/-! ## Grouped dive list: store, `DiveItem::setData`, `DiveTripModel::setupModelData` -/

/-- A dive record of the domain store, reduced to the fields
`DiveItem::setData` and `DiveTripModel::setupModelData` read:
the unique id (`dive->id`), the dive number (`dive->number`) and the
optional trip the dive belongs to (`dive->divetrip`, identified here by a
numeric trip id standing in for the trip pointer). -/
structure StoreDive where
  id : Nat
  number : Int
  trip : Option Nat
  deriving DecidableEq

/-- The slice of global state `DiveItem::setData` touches: the dive table
(`dive_table`) and the divelist-changed flag set by
`mark_divelist_changed`. -/
structure DiveStore where
  dives : List StoreDive
  dirty : Bool
  deriving DecidableEq

/-- `d = get_dive_by_uniq_id(diveId); d->number = v;` — write the number of
the first dive whose unique id matches, leaving every other record
untouched (ids are unique in the store, and the C++ lookup returns the
first match). -/
def setNumberById : List StoreDive → Nat → Int → List StoreDive
  | [], _, _ => []
  | d :: ds, i, v =>
    if d.id = i then { d with number := v } :: ds
    else d :: setNumberById ds i v

/-- Column indices of `DiveTripModel` (enum `{ NR, DATE, RATING, DEPTH,
DURATION, TEMPERATURE, TOTALWEIGHT, SUIT, CYLINDER, GAS, SAC, OTU, MAXCNS,
LOCATION, COLUMNS }`). Only `NR = 0` matters for editing. -/
def DiveTripModel.NR : Nat := 0

/-- `DiveItem::setData` (models.cpp:409-430): reject non-edit roles, reject
columns other than NR, reject value 0, reject when any dive in the table
already carries the proposed number (the loop `for_each_dive` includes the
dive being edited), otherwise write the number through the id lookup and
mark the divelist changed. Returns the C++ boolean result together with
the store after the call. -/
def DiveItem.setData (st : DiveStore) (diveId : Nat) (column : Nat)
    (value : Int) (role : Role) : Bool × DiveStore :=
  if role ≠ Role.edit then (false, st)
  else if column ≠ DiveTripModel.NR then (false, st)
  else if value = 0 then (false, st)
  else if st.dives.any (fun d => d.number = value) then (false, st)
  else (true, { dives := setNumberById st.dives diveId value, dirty := true })

/-- A node of the dive-list tree: a dive leaf (holding the dive's unique
id) or a trip node holding the ids of its dive children in child order. -/
inductive DLNode where
  | dive (id : Nat)
  | trip (tripId : Nat) (diveIds : List Nat)
  deriving DecidableEq

/-- The two layouts of `DiveTripModel` (enum `{ TREE, LIST }`). -/
inductive Layout where
  | tree
  | list
  deriving DecidableEq

/-- Structural-change announcements emitted through the Qt bracket calls
`beginRemoveRows`/`endRemoveRows` and `beginInsertRows`/`endInsertRows`
(first and last row of the announced root-level range). -/
inductive Signal where
  | removeRows (first last : Nat)
  | insertRows (first last : Nat)
  deriving DecidableEq

/-- `tripItem->children.push_back(diveItem)` on the `TripItem` looked up in
the `trips` map: append the dive id to the unique trip node carrying
`tripId`. -/
def appendToTrip : List DLNode → Nat → Nat → List DLNode
  | [], _, _ => []
  | DLNode.dive d :: rest, tid, did => DLNode.dive d :: appendToTrip rest tid did
  | DLNode.trip t ds :: rest, tid, did =>
    if t = tid then DLNode.trip t (ds ++ [did]) :: rest
    else DLNode.trip t ds :: appendToTrip rest tid did

/-- One iteration of the `while (--i >= 0)` body of
`DiveTripModel::setupModelData` for the dive `d`: state is the root's
child list together with the key set of the member `trips` map. -/
def setupStep (layout : Layout) (st : List DLNode × List Nat) (d : StoreDive) :
    List DLNode × List Nat :=
  match d.trip with
  | none => (st.1 ++ [DLNode.dive d.id], st.2)
  | some tid =>
    if layout = Layout.list then (st.1 ++ [DLNode.dive d.id], st.2)
    else if tid ∈ st.2 then (appendToTrip st.1 tid d.id, st.2)
    else (st.1 ++ [DLNode.trip tid [d.id]], st.2 ++ [tid])

/-- `DiveTripModel::setupModelData` (models.cpp:635-680). The model state
it reads and writes is the root item's child list (`rootItem->children`)
and the member `trips` map; neither is cleared by the function. The
remove bracket `beginRemoveRows(QModelIndex(), 0, rowCount()-1);
endRemoveRows();` announces a removal of every current row but performs
no mutation, after which the walk over `dive_table` in reverse index
order appends to the surviving child list; the final bracket announces an
insertion of rows `0 .. rowCount()-1` computed on the grown list.
Returned: new child list, new `trips` key set, and the emitted signals in
order. -/
def DiveTripModel.setupModelData (priorChildren : List DLNode)
    (priorTrips : List Nat) (diveTable : List StoreDive) (layout : Layout) :
    List DLNode × List Nat × List Signal :=
  let removeSignals :=
    if priorChildren.length ≠ 0 then
      [Signal.removeRows 0 (priorChildren.length - 1)]
    else []
  let built := diveTable.reverse.foldl (setupStep layout) (priorChildren, priorTrips)
  let insertSignals :=
    if built.1.length ≠ 0 then [Signal.insertRows 0 (built.1.length - 1)]
    else []
  (built.1, built.2, removeSignals ++ insertSignals)

/-! ## Table print model -/

/-- One row buffer of `TablePrintModel` (`struct TablePrintItem`): seven
text fields plus the row background color. Text is embedded as
`List Char` (QString code units). -/
structure TablePrintItem where
  number : List Char
  date : List Char
  depth : List Char
  duration : List Char
  divemaster : List Char
  buddy : List Char
  location : List Char
  colorBackground : Nat
  deriving DecidableEq

/-- The mutable state of `TablePrintModel`: the row-buffer list and the
`rows` counter (kept equal to the list length by `insertRow`). -/
structure TPModel where
  list : List TablePrintItem
  rows : Nat
  deriving DecidableEq

/-- The QVariant passed to `setData`: a text payload (read by
`value.toString()`) or an unsigned-int payload (read by
`value.value<unsigned int>()`). The cross conversions are never exercised
by this file's call sites, so they are stubbed to the type defaults. -/
inductive QVar where
  | str (s : List Char)
  | uint (n : Nat)
  deriving DecidableEq

def QVar.toText : QVar → List Char
  | .str s => s
  | .uint _ => []

def QVar.toUInt : QVar → Nat
  | .str _ => 0
  | .uint n => n

/-- The `case 6` truncation loop of `TablePrintModel::setData`
(models.cpp:1111-1127): scan `s` counting newlines; on the newline that
takes the count past `maxLines = 15` (the 16th), replace `s` by
`s.left(i - 1)` where `i` is that newline's index, and stop. `orig` is
the full string, `i` the current index, `count` the newlines seen so
far. -/
def truncScan (orig : List Char) : Nat → Nat → List Char → List Char
  | _, _, [] => orig
  | i, count, c :: rest =>
    if c = '\n' then
      if count + 1 > 15 then orig.take (i - 1)
      else truncScan orig (i + 1) (count + 1) rest
    else truncScan orig (i + 1) count rest

/-- The whole-string form of the column-6 truncation. -/
def tpTruncate (s : List Char) : List Char := truncScan s 0 0 s

/-- Number of newline characters in `s` (specification-side helper). -/
def nlCount (s : List Char) : Nat := s.countP (fun c => c = '\n')

/-- Index of the `n`-th newline of the string, counting from 1
(specification-side helper for stating where the truncation cuts). -/
def nthNlIdx : Nat → List Char → Option Nat
  | _, [] => none
  | n, c :: rest =>
    if c = '\n' then
      if n = 1 then some 0
      else (nthNlIdx (n - 1) rest).map (· + 1)
    else (nthNlIdx n rest).map (· + 1)

/-- The fall-through `switch (index.column())` of
`TablePrintModel::setData`: the cases for columns 0-5 have no `break`, so
entering at column `col` executes every later case body as well — field
`j` (0-5) is overwritten whenever `col ≤ j`, and the location field
(case 6) is overwritten with the truncated text whenever `col ≤ 6`. -/
def tpWriteText (item : TablePrintItem) (col : Nat) (s : List Char) : TablePrintItem :=
  { number := if col ≤ 0 then s else item.number
    date := if col ≤ 1 then s else item.date
    depth := if col ≤ 2 then s else item.depth
    duration := if col ≤ 3 then s else item.duration
    divemaster := if col ≤ 4 then s else item.divemaster
    buddy := if col ≤ 5 then s else item.buddy
    location := if col ≤ 6 then tpTruncate s else item.location
    colorBackground := item.colorBackground }

/-- Apply `f` to the row at position `n` (`list.at(index.row())` mutated in
place). -/
def setRow : List TablePrintItem → Nat → (TablePrintItem → TablePrintItem) → List TablePrintItem
  | [], _, _ => []
  | x :: xs, 0, f => f x :: xs
  | x :: xs, n + 1, f => x :: setRow xs n f

/-- Text field of a row buffer by column index (columns 0-6; out-of-range
indices land on the last field, never queried). -/
def TablePrintItem.field (item : TablePrintItem) : Nat → List Char
  | 0 => item.number
  | 1 => item.date
  | 2 => item.depth
  | 3 => item.duration
  | 4 => item.divemaster
  | 5 => item.buddy
  | _ => item.location

/-- `TablePrintModel::setData` (models.cpp:1094-1137): on a valid index
(row inside the model's `rows`, column inside the 7 fixed columns), a
Qt::DisplayRole write runs the fall-through text switch and returns
true; a Qt::BackgroundRole write stores the color and returns true;
everything else returns false and mutates nothing. -/
def TablePrintModel.setData (m : TPModel) (row col : Nat) (value : QVar)
    (role : Role) : Bool × TPModel :=
  if row < m.rows ∧ col < 7 then
    if role = Role.display then
      (true, { m with list := setRow m.list row (fun it => tpWriteText it col value.toText) })
    else if role = Role.background then
      (true, { m with list := setRow m.list row (fun it => { it with colorBackground := value.toUInt }) })
    else (false, m)
  else (false, m)

/-- The fresh row buffer made by `TablePrintModel::insertRow`: default
(empty) strings and white background. -/
def TablePrintModel.freshItem : TablePrintItem :=
  ⟨[], [], [], [], [], [], [], 0xffffffff⟩

/-- Concrete location text for the truncation counterexample: sixteen
repetitions of "a\n", so the 16th newline sits at index 31. -/
def c3text : List Char := (List.replicate 16 ['a', '\n']).flatten

/-! ## Yearly statistics -/

/-- The `stats_t` aggregate consumed by the statistics view. `period` and
`location` are opaque label ids; temperatures and the temperature sum
`combined_temp` (a double in C, only ever tested against zero and
divided here) are embedded as naturals. -/
structure stats_t where
  is_year : Bool
  is_trip : Bool
  period : Nat
  location : Nat
  selection_size : Nat
  total_time : Nat
  shortest_time : Nat
  longest_time : Nat
  avg_depth : Nat
  min_depth : Nat
  max_depth : Nat
  avg_sac : Nat
  min_sac : Nat
  max_sac : Nat
  combined_temp : Nat
  combined_count : Nat
  min_temp : Nat
  max_temp : Nat
  deriving DecidableEq

/-- The fifteen columns of `YearStatisticsItem`. -/
inductive YCol where
  | YEAR | DIVES | TOTAL_TIME | AVERAGE_TIME | SHORTEST_TIME | LONGEST_TIME
  | AVG_DEPTH | MIN_DEPTH | MAX_DEPTH | AVG_SAC | MIN_SAC | MAX_SAC
  | AVG_TEMP | MIN_TEMP | MAX_TEMP
  deriving DecidableEq

/-- Cell payloads of `YearStatisticsItem::data`: the raw numbers handed to
the external formatting helpers (`get_time_string`, `get_minutes`,
`get_depth_string`, `get_volume_string`, `QString::number`), tagged by
which helper renders them. -/
inductive YVal where
  | label (n : Nat)
  | count (n : Nat)
  | timeTotal (seconds : Nat)
  | minutes (seconds : Nat)
  | depth (mm : Nat)
  | volume (ml : Nat)
  | tempAvg (v : Nat)
  | tempVal (mkelvin : Nat)
  | fontBold (b : Bool)
  deriving DecidableEq

/-- `YearStatisticsItem::data` (models.cpp:853-923). `Except.error ()`
marks the execution of a C++ integer division with a zero divisor (a
fault); `Option.none` is Qt's invalid QVariant ("no value").
`tempShown x` stands for the external float test
`get_temp_units(x, NULL) > -100.0` guarding the min/max temperature
cells. The AVERAGE_TIME cell divides `total_time.seconds` by
`selection_size` with no zero guard; the AVG_TEMP cell divides only when
both `combined_temp` and `combined_count` are nonzero. -/
def yearStatsData (tempShown : Nat → Bool) (st : stats_t) (col : YCol)
    (role : Role) : Except Unit (Option YVal) :=
  if role = Role.font then .ok (some (.fontBold st.is_year))
  else if role ≠ Role.display then .ok none
  else match col with
  | .YEAR => .ok (some (.label (if st.is_trip then st.location else st.period)))
  | .DIVES => .ok (some (.count st.selection_size))
  | .TOTAL_TIME => .ok (some (.timeTotal st.total_time))
  | .AVERAGE_TIME =>
    if st.selection_size = 0 then .error ()
    else .ok (some (.minutes (st.total_time / st.selection_size)))
  | .SHORTEST_TIME => .ok (some (.minutes st.shortest_time))
  | .LONGEST_TIME => .ok (some (.minutes st.longest_time))
  | .AVG_DEPTH => .ok (some (.depth st.avg_depth))
  | .MIN_DEPTH => .ok (some (.depth st.min_depth))
  | .MAX_DEPTH => .ok (some (.depth st.max_depth))
  | .AVG_SAC => .ok (some (.volume st.avg_sac))
  | .MIN_SAC => .ok (some (.volume st.min_sac))
  | .MAX_SAC => .ok (some (.volume st.max_sac))
  | .AVG_TEMP =>
    if st.combined_temp ≠ 0 ∧ st.combined_count ≠ 0 then
      .ok (some (.tempAvg (st.combined_temp / st.combined_count)))
    else .ok none
  | .MIN_TEMP => .ok (if tempShown st.min_temp then some (.tempVal st.min_temp) else none)
  | .MAX_TEMP => .ok (if tempShown st.max_temp then some (.tempVal st.max_temp) else none)

/-- The inner month loop of `YearlyStatisticsModel::update_yearly_stats`
(models.cpp:997-1003): starting from accumulated count `acc`, while
`acc < total` consume the next monthly bucket, adding its
`selection_size`; return the consumed buckets (the year's month
children, in order) and the remaining buckets (the next year starts
where this one stopped). -/
def takeMonths (total : Nat) : Nat → List stats_t → List stats_t × List stats_t
  | _, [] => ([], [])
  | acc, m :: rest =>
    if acc < total then
      let p := takeMonths total (acc + m.selection_size) rest
      (m :: p.1, p.2)
    else ([], m :: rest)

/-- The year/month part of `update_yearly_stats` (models.cpp:994-1006):
one `(year, month children)` pair per yearly bucket, the shared `month`
cursor threaded through as the remainder list; also returns the monthly
buckets never consumed. -/
def update_yearly_stats (yearly monthly : List stats_t) :
    List (stats_t × List stats_t) × List stats_t :=
  match yearly with
  | [] => ([], monthly)
  | y :: ys =>
    let p := takeMonths y.selection_size 0 monthly
    let q := update_yearly_stats ys p.2
    ((y, p.1) :: q.1, q.2)

/-- The trip part of `update_yearly_stats` (models.cpp:1009-1018): if the
first `stats_by_trip` entry is a trip, it becomes one top-level node whose
children are the following consecutive trip entries. -/
def tripStatsNode (byTrip : List stats_t) : Option (stats_t × List stats_t) :=
  match byTrip with
  | [] => none
  | t :: rest =>
    if t.is_trip then some (t, rest.takeWhile (fun s => s.is_trip)) else none

/-! ## Device list (`DiveComputerModel`) -/

/-- `DiveComputerNode`: device id, model string (the multimap key) and
nickname. -/
structure DiveComputerNode where
  model : List Char
  deviceId : Nat
  nickName : List Char
  deriving DecidableEq

/-- QString ordering (UTF-16 code-unit lexicographic), deciding where
`QMultiMap::insert` places an entry. -/
def strLt : List Char → List Char → Bool
  | [], [] => false
  | [], _ :: _ => true
  | _ :: _, [] => false
  | a :: as, b :: bs =>
    if a.toNat < b.toNat then true
    else if b.toNat < a.toNat then false
    else strLt as bs

/-- `QMultiMap<QString, DiveComputerNode>` embedded as its iteration-order
entry list: keys ascending, and entries sharing a key ordered most
recently inserted first. `insert` therefore places the new entry before
the first position whose key is not smaller. -/
def dcmInsert (k : List Char) (v : DiveComputerNode) :
    List (List Char × DiveComputerNode) → List (List Char × DiveComputerNode)
  | [] => [(k, v)]
  | (k2, v2) :: rest =>
    if strLt k2 k then (k2, v2) :: dcmInsert k v rest
    else (k, v) :: (k2, v2) :: rest

/-- `QMultiMap::remove(key, value)`: delete every entry equal to the
key/value pair. -/
def dcmRemove (k : List Char) (v : DiveComputerNode)
    (m : List (List Char × DiveComputerNode)) : List (List Char × DiveComputerNode) :=
  m.filter (fun p => !(decide (p.1 = k ∧ p.2 = v)))

/-- `QMultiMap::values()`: the values in iteration order. -/
def dcmValues (m : List (List Char × DiveComputerNode)) : List DiveComputerNode :=
  m.map Prod.snd

/-- State of `DiveComputerModel`: the working multimap and the `numRows`
counter (only `update()` changes `numRows`). -/
structure DCModel where
  dcWorkingMap : List (List Char × DiveComputerNode)
  numRows : Nat
  deriving DecidableEq

/-- Column indices of `DiveComputerModel` (`REMOVE, MODEL, ID, NICKNAME`). -/
def DiveComputerModel.NICKNAME : Nat := 3

/-- `DiveComputerModel::flags` adds the editable bit exactly on the
NICKNAME column. -/
def DiveComputerModel.flagsEditable (col : Nat) : Bool :=
  decide (col = DiveComputerModel.NICKNAME)

/-- `DiveComputerModel::setData` (models.cpp:783-792): look the node up by
row in `values()` (out of range faults in C++, embedded as `none`),
remove every entry equal to it under its model key, reinsert it with the
new nickname, emit `dataChanged(index, index)` and return true — the
column and role arguments are never consulted. Result: C++ return value,
new model state, and the emitted single-cell change notifications as
(row, column) pairs. -/
def DiveComputerModel.setData (m : DCModel) (row col : Nat)
    (value : List Char) (_role : Role) :
    Option (Bool × DCModel × List (Nat × Nat)) :=
  match (dcmValues m.dcWorkingMap).get? row with
  | none => none
  | some node =>
    let node2 : DiveComputerNode := { node with nickName := value }
    some (true,
      { m with dcWorkingMap := dcmInsert node2.model node2 (dcmRemove node.model node m.dcWorkingMap) },
      [(row, col)])

/-! ## Profile print model -/

/-- Cell contents of the fixed 12×5 `ProfilePrintModel` grid, tagged by
what the display switch synthesizes there (formatted through external
helpers). -/
inductive PCell where
  | diveNrDate | maxDepth | location | duration
  | gasHeading | tagsHeading | sacHeading | weightsHeading
  | notesHeading | notesValue
  | dmHeading | buddyHeading | suitHeading | vizHeading | ratingHeading
  | gasList | tagsValue | sacValue | weightsValue
  | dmValue | buddyValue | suitValue | vizValue | ratingValue
  | empty
  deriving DecidableEq

/-- `ProfilePrintModel::data`, Qt::DisplayRole branch (models.cpp:1189-1287):
which value is synthesized at each (row, column); every cell not covered
by the switch is the empty string. -/
def ProfilePrintModel.display (row col : Nat) : PCell :=
  if row = 0 ∧ col = 0 then .diveNrDate
  else if row = 0 ∧ col = 3 then .maxDepth
  else if row = 1 ∧ col = 0 then .location
  else if row = 1 ∧ col = 3 then .duration
  else if row = 2 ∧ col = 0 then .gasHeading
  else if row = 2 ∧ col = 2 then .tagsHeading
  else if row = 2 ∧ col = 3 then .sacHeading
  else if row = 2 ∧ col = 4 then .weightsHeading
  else if row = 6 ∧ col = 0 then .notesHeading
  else if row = 7 ∧ col = 0 then .notesValue
  else if row = 4 ∧ col = 0 then .dmHeading
  else if row = 4 ∧ col = 1 then .buddyHeading
  else if row = 4 ∧ col = 2 then .suitHeading
  else if row = 4 ∧ col = 3 then .vizHeading
  else if row = 4 ∧ col = 4 then .ratingHeading
  else if row = 3 ∧ col = 0 then .gasList
  else if row = 3 ∧ col = 2 then .tagsValue
  else if row = 3 ∧ col = 3 then .sacValue
  else if row = 3 ∧ col = 4 then .weightsValue
  else if row = 5 ∧ col = 0 then .dmValue
  else if row = 5 ∧ col = 1 then .buddyValue
  else if row = 5 ∧ col = 2 then .suitValue
  else if row = 5 ∧ col = 3 then .vizValue
  else if row = 5 ∧ col = 4 then .ratingValue
  else .empty

/-- Horizontal cell alignment. -/
inductive Align where
  | left
  | right
  deriving DecidableEq

/-- `ProfilePrintModel::data`, Qt::TextAlignmentRole branch
(models.cpp:1297-1304): everything left-aligned except column 4 of the
two header rows. -/
def ProfilePrintModel.alignment (row col : Nat) : Align :=
  if row < 2 ∧ col = 4 then .right else .left

/-- Positionwise effect of the id-keyed number write: every slot is either
left unchanged or holds a dive with the edited id whose number has been
set to the new value. -/
theorem setNumberById_get? (l : List StoreDive) (i : Nat) (v : Int) (j : Nat) :
    (setNumberById l i v).get? j = l.get? j ∨
    ∃ d, l.get? j = some d ∧ d.id = i ∧
      (setNumberById l i v).get? j = some { d with number := v } := by
  induction l generalizing j with
  | nil => left; rfl
  | cons d ds ih =>
    by_cases hd : d.id = i
    · match j with
      | 0 => exact Or.inr ⟨d, rfl, hd, by simp [setNumberById, hd]⟩
      | j + 1 => left; simp [setNumberById, hd]
    · match j with
      | 0 => left; simp [setNumberById, hd]
      | j + 1 => simpa [setNumberById, hd] using ih j

end Subsurface

namespace Subsurface

/-- C1 (amended): `DiveItem::setData` succeeds exactly when the role is the
edit role, the column is NR, the value is nonzero and no dive in the
store — including the edited dive itself — already carries that number;
failure leaves the store untouched, success marks it dirty and changes at
most the number of the dive with the edited id. -/
theorem diveItem_setData_spec (st : DiveStore) (diveId : Nat) (column : Nat)
    (value : Int) (role : Role) :
    ((DiveItem.setData st diveId column value role).1 = true ↔
      (role = Role.edit ∧ column = DiveTripModel.NR ∧ value ≠ 0 ∧
        ∀ d ∈ st.dives, d.number ≠ value)) ∧
    ((DiveItem.setData st diveId column value role).1 = false →
      (DiveItem.setData st diveId column value role).2 = st) ∧
    ((DiveItem.setData st diveId column value role).1 = true →
      (DiveItem.setData st diveId column value role).2 =
        { dives := setNumberById st.dives diveId value, dirty := true }) ∧
    (∀ j, (setNumberById st.dives diveId value).get? j = st.dives.get? j ∨
      ∃ d, st.dives.get? j = some d ∧ d.id = diveId ∧
        (setNumberById st.dives diveId value).get? j =
          some { d with number := value }) := by
  refine ⟨?_, ?_, ?_, fun j => setNumberById_get? st.dives diveId value j⟩ <;>
    · unfold DiveItem.setData
      split_ifs with h1 h2 h3 h4 <;>
        simp_all [List.any_eq_true, not_exists]

/-- C1 witness: concrete successful edit — store with dives numbered 5 and
7, editing dive id 1 to the unused number 9 succeeds, marks the store
dirty and renumbers only dive 1. -/
theorem diveItem_setData_spec_witness :
    (DiveItem.setData ⟨[⟨1, 5, none⟩, ⟨2, 7, none⟩], false⟩ 1 0 9 Role.edit).1 = true ∧
    (DiveItem.setData ⟨[⟨1, 5, none⟩, ⟨2, 7, none⟩], false⟩ 1 0 9 Role.edit).2 =
      ⟨[⟨1, 9, none⟩, ⟨2, 7, none⟩], true⟩ := by
  have h := diveItem_setData_spec ⟨[⟨1, 5, none⟩, ⟨2, 7, none⟩], false⟩ 1 0 9 Role.edit
  have hs : (DiveItem.setData ⟨[⟨1, 5, none⟩, ⟨2, 7, none⟩], false⟩ 1 0 9 Role.edit).1 = true :=
    h.1.mpr (by decide)
  exact ⟨hs, by rw [h.2.2.1 hs]; decide⟩

/-- C1 counterexample: a dive whose own number is 5 cannot be re-set to 5 —
the value is nonzero and used by no *different* dive, yet the code
returns failure, because the duplicate scan runs over every dive
including the one being edited. -/
theorem diveItem_setData_own_number_cex :
    (DiveItem.setData ⟨[⟨1, 5, none⟩], false⟩ 1 DiveTripModel.NR 5 Role.edit).1 = false ∧
    (5 : Int) ≠ 0 ∧
    (∀ d ∈ (⟨[⟨1, 5, none⟩], false⟩ : DiveStore).dives, d.id ≠ 1 → d.number ≠ 5) := by
  decide

/-- Newline count of a cons cell. -/
theorem nlCount_cons (c : Char) (s : List Char) :
    nlCount (c :: s) = nlCount s + (if c = '\n' then 1 else 0) := by
  simp [nlCount, List.countP_cons]

/-- If at most 15 newlines remain to be counted, the truncation scan
returns the original string unchanged. -/
theorem truncScan_no_cut (rest : List Char) : ∀ (orig : List Char) (i count : Nat),
    nlCount rest + count ≤ 15 → truncScan orig i count rest = orig := by
  induction rest with
  | nil => intro orig i count _; rfl
  | cons c rest ih =>
    intro orig i count h
    rw [nlCount_cons] at h
    by_cases hc : c = '\n'
    · rw [if_pos hc] at h
      have hle : ¬ count + 1 > 15 := by omega
      simp only [truncScan, if_pos hc, if_neg hle]
      exact ih orig (i + 1) (count + 1) (by omega)
    · rw [if_neg hc] at h
      simp only [truncScan, if_neg hc]
      exact ih orig (i + 1) count (by omega)

/-- If the `(16 - count)`-th remaining newline sits at offset `j`, the
truncation scan cuts the original string to its first `i + j - 1`
characters — one short of the text preceding that newline. -/
theorem truncScan_cut (rest : List Char) : ∀ (orig : List Char) (i count j : Nat),
    count ≤ 15 → nthNlIdx (16 - count) rest = some j →
    truncScan orig i count rest = orig.take (i + j - 1) := by
  induction rest with
  | nil => intro orig i count j _ h; simp [nthNlIdx] at h
  | cons c rest ih =>
    intro orig i count j hcount h
    by_cases hc : c = '\n'
    · by_cases h15 : count = 15
      · subst h15
        have hj : j = 0 := by
          simp [nthNlIdx, hc] at h
          omega
        subst hj
        simp [truncScan, hc]
      · have h1 : 16 - count ≠ 1 := by omega
        simp only [nthNlIdx, if_pos hc, if_neg h1, Option.map_eq_some'] at h
        obtain ⟨j2, hj2, hj⟩ := h
        have hrw : 16 - count - 1 = 16 - (count + 1) := by omega
        rw [hrw] at hj2
        have hle : ¬ count + 1 > 15 := by omega
        simp only [truncScan, if_pos hc, if_neg hle]
        rw [ih orig (i + 1) (count + 1) j2 (by omega) hj2]
        congr 1
        omega
    · simp only [nthNlIdx, if_neg hc, Option.map_eq_some'] at h
      obtain ⟨j2, hj2, hj⟩ := h
      simp only [truncScan, if_neg hc]
      rw [ih orig (i + 1) count j2 hcount hj2]
      congr 1
      omega

/-- Writing row `n` changes exactly that slot. -/
theorem setRow_get?_self (f : TablePrintItem → TablePrintItem) :
    ∀ (l : List TablePrintItem) (n : Nat), (setRow l n f).get? n = (l.get? n).map f := by
  intro l
  induction l with
  | nil => intro n; rfl
  | cons x xs ih =>
    intro n
    match n with
    | 0 => rfl
    | n + 1 => simpa [setRow] using ih n

/-- Rows other than the written one are untouched. -/
theorem setRow_get?_other (f : TablePrintItem → TablePrintItem) :
    ∀ (l : List TablePrintItem) (n m : Nat), m ≠ n →
      (setRow l n f).get? m = l.get? m := by
  intro l
  induction l with
  | nil => intro n m _; rfl
  | cons x xs ih =>
    intro n m hne
    match n, m with
    | 0, 0 => exact absurd rfl hne
    | 0, m + 1 => rfl
    | n + 1, 0 => rfl
    | n + 1, m + 1 => simpa [setRow] using ih n m (by omega)

/-- Fields at or past the entry column (among the six plain text fields)
receive the written text: the switch has no `break`. -/
theorem tpWriteText_field_ge (it : TablePrintItem) (col : Nat) (s : List Char)
    (j : Nat) (hcj : col ≤ j) (hj : j ≤ 5) :
    (tpWriteText it col s).field j = s := by
  interval_cases j <;> simp [TablePrintItem.field, tpWriteText, hcj]

/-- Fields strictly before the entry column are untouched. -/
theorem tpWriteText_field_lt (it : TablePrintItem) (col : Nat) (s : List Char)
    (j : Nat) (hj : j ≤ 6) (hlt : j < col) :
    (tpWriteText it col s).field j = it.field j := by
  have h0 : ¬ col ≤ j := by omega
  interval_cases j <;> simp [TablePrintItem.field, tpWriteText, h0]

/-- C2: `setupModelData` announces a remove-all bracket but never deletes
the root's children, so a child left over from an earlier build survives
the rebuild: with one stale dive row and an empty dive table the function
emits the remove announcement for row 0 and still reports that row among
its children (and even re-announces it as inserted). -/
theorem setupModelData_stale_row_remains :
    DiveTripModel.setupModelData [DLNode.dive 99] [] [] Layout.tree =
      ([DLNode.dive 99], [], [Signal.removeRows 0 0, Signal.insertRows 0 0]) ∧
    DLNode.dive 99 ∈ (DiveTripModel.setupModelData [DLNode.dive 99] [] [] Layout.tree).1 := by
  decide

/-- C5: building the grouped layout from the store order
`[d1(trip T1), d2(trip T1), d3(no trip), d4(trip T2)]` walks the table in
reverse and yields root children `[T2{d4}, d3, T1{d2, d1}]`. -/
theorem setupModelData_grouped_example :
    (DiveTripModel.setupModelData [] []
        [⟨1, 1, some 1⟩, ⟨2, 2, some 1⟩, ⟨3, 3, none⟩, ⟨4, 4, some 2⟩]
        Layout.tree).1 =
      [DLNode.trip 2 [4], DLNode.dive 3, DLNode.trip 1 [2, 1]] := by
  decide

/-- C3 (amended): a column-6 text with at most 15 newlines is stored
unchanged; a text whose 16th newline sits at index `i` is cut to its
first `i - 1` characters — one character short of the text preceding that
newline, because the code takes `s.left(i - 1)`; and the column-6 store
of `setData` writes exactly this truncation into the row's location
field. -/
theorem tablePrint_truncation_spec (s : List Char) :
    (nlCount s ≤ 15 → tpTruncate s = s) ∧
    (∀ i, nthNlIdx 16 s = some i → tpTruncate s = s.take (i - 1)) ∧
    (∀ (m : TPModel) (row : Nat), row < m.rows →
      (TablePrintModel.setData m row 6 (QVar.str s) Role.display).2.list.get? row =
        (m.list.get? row).map (fun it => { it with location := tpTruncate s })) := by
  refine ⟨fun h => truncScan_no_cut s s 0 0 (by omega), fun i hi => ?_, ?_⟩
  · simpa using truncScan_cut s s 0 0 i (by omega) (by simpa using hi)
  · intro m row hrow
    have hstep : (TablePrintModel.setData m row 6 (QVar.str s) Role.display).2.list =
        setRow m.list row (fun it => tpWriteText it 6 s) := by
      simp [TablePrintModel.setData, hrow, QVar.toText]
    rw [hstep, setRow_get?_self]
    rcases m.list.get? row with _ | it
    · rfl
    · simp [tpWriteText, QVar.toText]

/-- C3 witness: a two-character text (no newlines) survives unchanged, the
counterexample text is cut to 30 characters, and the column-6 write
stores the truncation. -/
theorem tablePrint_truncation_spec_witness :
    tpTruncate ['a', 'b'] = ['a', 'b'] ∧
    tpTruncate c3text = c3text.take 30 ∧
    (TablePrintModel.setData ⟨[TablePrintModel.freshItem], 1⟩ 0 6
        (QVar.str ['a', 'b']) Role.display).2.list.get? 0 =
      ((⟨[TablePrintModel.freshItem], 1⟩ : TPModel).list.get? 0).map
        (fun it => { it with location := tpTruncate ['a', 'b'] }) := by
  refine ⟨(tablePrint_truncation_spec ['a', 'b']).1 (by decide), ?_, ?_⟩
  · simpa using (tablePrint_truncation_spec c3text).2.1 31 (by decide)
  · exact (tablePrint_truncation_spec ['a', 'b']).2.2 ⟨[TablePrintModel.freshItem], 1⟩ 0
      (by decide)

/-- C3 counterexample: the 16-fold "a\n" text has its 16th newline at
index 31, but the stored location is the 30-character prefix, not the
31-character text preceding that newline. -/
theorem tablePrint_truncation_cex :
    (TablePrintModel.setData ⟨[TablePrintModel.freshItem], 1⟩ 0 6
        (QVar.str c3text) Role.display).2.list =
      [{ TablePrintModel.freshItem with location := c3text.take 30 }] ∧
    nthNlIdx 16 c3text = some 31 ∧
    c3text.take 30 ≠ c3text.take 31 := by
  decide

/-- C4 (amended): the average-temperature cell is guarded — a zero
combined sample count (or zero temperature sum) yields "no value" — but
the average-time cell divides by the interval's dive count
unconditionally: a zero dive count executes a zero-divisor division
(a fault), and a nonzero count yields the divided value. -/
theorem yearStats_denominator_spec (tempShown : Nat → Bool) (st : stats_t) :
    (st.combined_count = 0 →
      yearStatsData tempShown st YCol.AVG_TEMP Role.display = Except.ok none) ∧
    (st.combined_temp = 0 →
      yearStatsData tempShown st YCol.AVG_TEMP Role.display = Except.ok none) ∧
    (st.selection_size = 0 →
      yearStatsData tempShown st YCol.AVERAGE_TIME Role.display = Except.error ()) ∧
    (st.selection_size ≠ 0 →
      yearStatsData tempShown st YCol.AVERAGE_TIME Role.display =
        Except.ok (some (YVal.minutes (st.total_time / st.selection_size)))) := by
  refine ⟨fun h => ?_, fun h => ?_, fun h => ?_, fun h => ?_⟩ <;>
    simp [yearStatsData, h]

/-- C4 witness: an interval with dive count 0 and combined count 0 renders
the average-temperature cell as "no value" while the average-time cell
executes the zero-divisor division. -/
theorem yearStats_denominator_spec_witness :
    yearStatsData (fun _ => true)
        ⟨true, false, 0, 0, 0, 60, 0, 0, 0, 0, 0, 0, 0, 0, 5, 0, 0, 0⟩
        YCol.AVG_TEMP Role.display = Except.ok none ∧
    yearStatsData (fun _ => true)
        ⟨true, false, 0, 0, 0, 60, 0, 0, 0, 0, 0, 0, 0, 0, 5, 0, 0, 0⟩
        YCol.AVERAGE_TIME Role.display = Except.error () := by
  exact ⟨(yearStats_denominator_spec (fun _ => true) _).1 rfl,
    (yearStats_denominator_spec (fun _ => true) _).2.2.1 rfl⟩

/-- C4 counterexample: on an interval whose dive count is zero the
average-time cell does not return "no value" — the division is executed
(zero divisor, a fault in the C++). -/
theorem yearStats_avgTime_divides_cex :
    yearStatsData (fun _ => true)
        ⟨true, false, 0, 0, 0, 60, 0, 0, 0, 0, 0, 0, 0, 0, 0, 0, 0, 0⟩
        YCol.AVERAGE_TIME Role.display = Except.error () ∧
    yearStatsData (fun _ => true)
        ⟨true, false, 0, 0, 0, 60, 0, 0, 0, 0, 0, 0, 0, 0, 0, 0, 0, 0⟩
        YCol.AVERAGE_TIME Role.display ≠ Except.ok none := by
  refine ⟨rfl, fun h => ?_⟩
  simp [yearStatsData] at h

/-- C6: the month loop consumes monthly buckets in order (consumed and
remaining buckets always recombine to the original sequence), and a year
of total dive count 12 facing thirteen consecutive monthly buckets of
count 1 takes exactly the first twelve as its month children, leaving
the 13th unconsumed. -/
theorem yearly_month_assignment :
    (∀ (total acc : Nat) (ms : List stats_t),
      (takeMonths total acc ms).1 ++ (takeMonths total acc ms).2 = ms) ∧
    update_yearly_stats
        [⟨true, false, 2020, 0, 12, 720, 10, 80, 0, 0, 0, 0, 0, 0, 0, 0, 0, 0⟩]
        (List.replicate 13 ⟨false, false, 1, 0, 1, 60, 10, 80, 0, 0, 0, 0, 0, 0, 0, 0, 0, 0⟩) =
      ([(⟨true, false, 2020, 0, 12, 720, 10, 80, 0, 0, 0, 0, 0, 0, 0, 0, 0, 0⟩,
          List.replicate 12 ⟨false, false, 1, 0, 1, 60, 10, 80, 0, 0, 0, 0, 0, 0, 0, 0, 0, 0⟩)],
        [⟨false, false, 1, 0, 1, 60, 10, 80, 0, 0, 0, 0, 0, 0, 0, 0, 0, 0⟩]) := by
  constructor
  · intro total acc ms
    induction ms generalizing acc with
    | nil => rfl
    | cons m rest ih =>
      by_cases h : acc < total
      · simp [takeMonths, h, ih]
      · simp [takeMonths, h]
  · decide

/-- C7 (amended): `TablePrintModel::setData` succeeds exactly on a valid
index with a Qt::DisplayRole text write or a Qt::BackgroundRole write —
the role the text path accepts is the display role, not the edit role —
and every failing call leaves the model unchanged. -/
theorem tablePrint_setData_roles (m : TPModel) (row col : Nat) (value : QVar)
    (role : Role) :
    ((TablePrintModel.setData m row col value role).1 = true ↔
      (row < m.rows ∧ col < 7 ∧ (role = Role.display ∨ role = Role.background))) ∧
    ((TablePrintModel.setData m row col value role).1 = false →
      (TablePrintModel.setData m row col value role).2 = m) := by
  unfold TablePrintModel.setData
  split_ifs with h1 h2 h3 <;> simp_all

/-- C7 witness: on a one-row model, an edit-role write leaves the model
unchanged, and a display-role write at the same valid index succeeds. -/
theorem tablePrint_setData_roles_witness :
    (TablePrintModel.setData ⟨[TablePrintModel.freshItem], 1⟩ 0 0
        (QVar.str ['x']) Role.edit).2 = ⟨[TablePrintModel.freshItem], 1⟩ ∧
    (TablePrintModel.setData ⟨[TablePrintModel.freshItem], 1⟩ 0 0
        (QVar.str ['x']) Role.display).1 = true := by
  exact ⟨(tablePrint_setData_roles ⟨[TablePrintModel.freshItem], 1⟩ 0 0
        (QVar.str ['x']) Role.edit).2 (by decide),
    (tablePrint_setData_roles ⟨[TablePrintModel.freshItem], 1⟩ 0 0
        (QVar.str ['x']) Role.display).1.mpr (by decide)⟩

/-- C7 counterexample: at a valid index of a one-row model the edit-role
write fails (the claim says it is the supported mutation) while the
display-role write succeeds (the claim says any role other than edit and
background must fail). -/
theorem tablePrint_setData_editRole_cex :
    TablePrintModel.setData ⟨[TablePrintModel.freshItem], 1⟩ 0 0
        (QVar.str ['x']) Role.edit =
      (false, ⟨[TablePrintModel.freshItem], 1⟩) ∧
    (TablePrintModel.setData ⟨[TablePrintModel.freshItem], 1⟩ 0 0
        (QVar.str ['x']) Role.display).1 = true := by
  decide

/-- C8 (amended): only the nickname column is flagged editable, but
`DiveComputerModel::setData` never inspects its column or role arguments:
for any row whose node resolves, any column and any role, it removes the
node's entries under its model key, reinserts the node with the new
nickname, returns success, emits exactly one single-cell change for the
given cell, and leaves `numRows` (the structural row count) unchanged. -/
theorem dcm_setData_spec (m : DCModel) (row col : Nat) (value : List Char)
    (role : Role) (node : DiveComputerNode)
    (h : (dcmValues m.dcWorkingMap).get? row = some node) :
    DiveComputerModel.setData m row col value role =
      some (true,
        { m with dcWorkingMap :=
            (dcmInsert node.model { node with nickName := value }
              (dcmRemove node.model node m.dcWorkingMap)) },
        [(row, col)]) ∧
    (∀ result, DiveComputerModel.setData m row col value role = some result →
      result.2.1.numRows = m.numRows) ∧
    (∀ c : Nat, DiveComputerModel.flagsEditable c = true ↔ c = 3) := by
  have hmain : DiveComputerModel.setData m row col value role =
      some (true,
        { m with dcWorkingMap :=
            (dcmInsert node.model { node with nickName := value }
              (dcmRemove node.model node m.dcWorkingMap)) },
        [(row, col)]) := by
    unfold DiveComputerModel.setData
    rw [h]
  refine ⟨hmain, ?_,
    fun c => by simp [DiveComputerModel.flagsEditable, DiveComputerModel.NICKNAME]⟩
  intro result hr
  rw [hmain] at hr
  cases hr
  rfl

/-- C8 witness: a one-entry device map edited through column 1 (the model
column) with the display role still succeeds, renames the nickname, and
keeps the row count. -/
theorem dcm_setData_spec_witness :
    DiveComputerModel.setData ⟨[(['m'], ⟨['m'], 1, ['n']⟩)], 1⟩ 0 1 ['z'] Role.display =
      some (true,
        { dcWorkingMap :=
            (dcmInsert ['m'] ⟨['m'], 1, ['z']⟩
              (dcmRemove ['m'] ⟨['m'], 1, ['n']⟩ [(['m'], ⟨['m'], 1, ['n']⟩)])),
          numRows := 1 },
        [(0, 1)]) := by
  exact (dcm_setData_spec ⟨[(['m'], ⟨['m'], 1, ['n']⟩)], 1⟩ 0 1 ['z'] Role.display
    ⟨['m'], 1, ['n']⟩ rfl).1

/-- C8 counterexample: a setData call addressed to column 1 (the model
column, not the nickname column) with the display role (not the edit
role) is not rejected — it succeeds and rewrites the nickname. -/
theorem dcm_setData_no_guard_cex :
    DiveComputerModel.setData ⟨[(['m'], ⟨['m'], 1, ['n']⟩)], 1⟩ 0 1 ['z'] Role.display =
      some (true, ⟨[(['m'], ⟨['m'], 1, ['z']⟩)], 1⟩, [(0, 1)]) ∧
    (1 : Nat) ≠ DiveComputerModel.NICKNAME := by
  decide

/-- C9: the text-alignment branch right-aligns column 4 of the two header
rows — cells the display branch leaves empty — while the cells actually
holding the max-depth and duration values (column 3 of rows 0 and 1) are
left-aligned, contradicting the source comment "align depth and duration
right". -/
theorem profile_alignment_bug :
    ProfilePrintModel.display 0 3 = PCell.maxDepth ∧
    ProfilePrintModel.alignment 0 3 = Align.left ∧
    ProfilePrintModel.display 1 3 = PCell.duration ∧
    ProfilePrintModel.alignment 1 3 = Align.left ∧
    ProfilePrintModel.alignment 0 4 = Align.right ∧
    ProfilePrintModel.display 0 4 = PCell.empty ∧
    ProfilePrintModel.alignment 1 4 = Align.right ∧
    ProfilePrintModel.display 1 4 = PCell.empty := by
  decide

/-- C10: a display-role text write at a valid index with column `k ≤ 5`
falls through the breakless switch: every text field from `k` through 5
receives the written value and the location field receives its
truncation, fields before `k` and the background keep their old values,
a write addressed to column 6 changes only the location, and all other
rows are untouched. -/
theorem tablePrint_setData_fallthrough (m : TPModel) (row col : Nat)
    (s : List Char) (hrow : row < m.rows) (hcol : col < 7)
    (it : TablePrintItem) (hit : m.list.get? row = some it) :
    ∃ it2,
      (TablePrintModel.setData m row col (QVar.str s) Role.display).2.list.get? row =
        some it2 ∧
      (∀ j, col ≤ j → j ≤ 5 → it2.field j = s) ∧
      (col ≤ 6 → it2.location = tpTruncate s) ∧
      (∀ j, j ≤ 6 → j < col → it2.field j = it.field j) ∧
      it2.colorBackground = it.colorBackground ∧
      (col = 6 → ∀ j, j ≤ 5 → it2.field j = it.field j) ∧
      (∀ r2, r2 ≠ row →
        (TablePrintModel.setData m row col (QVar.str s) Role.display).2.list.get? r2 =
          m.list.get? r2) := by
  have hstep : (TablePrintModel.setData m row col (QVar.str s) Role.display).2.list =
      setRow m.list row (fun it => tpWriteText it col s) := by
    simp [TablePrintModel.setData, hrow, hcol, QVar.toText]
  refine ⟨tpWriteText it col s, ?_, ?_, ?_, ?_, ?_, ?_, ?_⟩
  · rw [hstep, setRow_get?_self, hit]
    rfl
  · exact fun j h1 h2 => tpWriteText_field_ge it col s j h1 h2
  · intro h6
    simp [tpWriteText, h6]
  · exact fun j hj hlt => tpWriteText_field_lt it col s j hj hlt
  · rfl
  · intro h6 j hj
    exact tpWriteText_field_lt it col s j (by omega) (by omega)
  · intro r2 hr2
    rw [hstep]
    exact setRow_get?_other _ m.list row r2 hr2

/-- C10 witness: on a one-row model, writing "x" at column 2 sets columns
2-5 to "x", truncates into the location, and leaves column 1 as it
was. -/
theorem tablePrint_setData_fallthrough_witness :
    ∃ it2,
      (TablePrintModel.setData ⟨[TablePrintModel.freshItem], 1⟩ 0 2
          (QVar.str ['x']) Role.display).2.list.get? 0 = some it2 ∧
      it2.field 3 = ['x'] ∧
      it2.field 1 = TablePrintModel.freshItem.field 1 := by
  obtain ⟨it2, h1, h2, _, h4, _, _, _⟩ :=
    tablePrint_setData_fallthrough ⟨[TablePrintModel.freshItem], 1⟩ 0 2 ['x']
      (by decide) (by decide) TablePrintModel.freshItem rfl
  exact ⟨it2, h1, h2 3 (by omega) (by omega), h4 1 (by omega) (by omega)⟩

end Subsurface
